import Mathlib

/-
  Verification of the shaku dependency-injection container.

  Shallow embedding of:
    src/shaku/src/parameter/parameter_map.rs   (ParameterMap and its operations)
    src/shaku/src/container/container_builder.rs (ContainerBuilder)
  plus spec-modelled definitions for the parts of the crate whose source is
  not in the excerpt (the Parameter record, the type-erased registry Map,
  RegisteredType, Container and its resolve operation).

  Rust type identities (std::any::TypeId) are embedded as an arbitrary type
  Code with decidable equality; a Rust value of the type denoted by a code c
  is embedded as an element of El c, for an arbitrary interpretation
  El : Code -> Type. A boxed Any value together with its TypeId is a
  dependent pair; the checked downcast of Any compares codes and transports
  on success, exactly as TypeId comparison plus downcast does in Rust.
-/

set_option autoImplicit false
set_option linter.unusedSectionVars false
set_option linter.unusedVariables false

namespace Shaku

section ParameterStore

variable {Code : Type} [DecidableEq Code] {El : Code → Type}

/-- Modelled from the spec: the Parameter record (its source file is not in
the excerpt). Per spec section 3 it carries a declared name, a type identity
tag, and the boxed value itself; the constructor records the type identity
of the actual value, so the tag always matches the payload. -/
structure Parameter (Code : Type) (El : Code → Type) where
  name : String
  type_id : Code
  value : El type_id

/-- Modelled from the spec: Parameter construction records the name and the
type identity of the supplied value. -/
def Parameter.new (key : String) (V : Code) (value : El V) : Parameter Code El :=
  ⟨key, V, value⟩

/-- Modelled from the spec: the checked downcast of the boxed value to a
requested type V. It succeeds exactly when the stored type identity equals
V; on mismatch it fails closed with none, never reinterpreting the value. -/
def Parameter.get_value (p : Parameter Code El) (V : Code) : Option (El V) :=
  if h : p.type_id = V then some (h ▸ p.value) else none

/-- Embedding of the private Key enum of parameter_map.rs: a parameter key
is either a string name or a type identity. -/
inductive Key (Code : Type) where
  | str : String → Key Code
  | id : Code → Key Code
deriving DecidableEq

/-- Lookup in the underlying HashMap, embedded as first-match lookup in an
association list. -/
def mapLookup (m : List (Key Code × Parameter Code El)) (k : Key Code) :
    Option (Parameter Code El) :=
  match m with
  | [] => none
  | (k2, p) :: rest => if k2 = k then some p else mapLookup rest k

/-- HashMap.insert: stores the binding, returning the previous value at the
key when one existed. All stale bindings for the key are dropped, so lookup
afterwards sees exactly the new value. -/
def mapInsert (m : List (Key Code × Parameter Code El)) (k : Key Code)
    (p : Parameter Code El) :
    Option (Parameter Code El) × List (Key Code × Parameter Code El) :=
  (mapLookup m k, (k, p) :: m.filter (fun e => !(decide (e.1 = k))))

/-- HashMap.remove: drops the binding at the key, returning the removed
value when one existed. -/
def mapRemove (m : List (Key Code × Parameter Code El)) (k : Key Code) :
    Option (Parameter Code El) × List (Key Code × Parameter Code El) :=
  (mapLookup m k, m.filter (fun e => !(decide (e.1 = k))))

/-- Embedding of ParameterMap from parameter_map.rs: a map from Key to
Parameter. -/
structure ParameterMap (Code : Type) (El : Code → Type) where
  map : List (Key Code × Parameter Code El)

/-- ParameterMap::new creates an empty map. -/
def ParameterMap.new : ParameterMap Code El := ⟨[]⟩

/-- ParameterMap::insert_with_name: inserts Parameter::new(key, value) at
Key::String(key); the evicted parameter, if any, is downcast to the type of
the new value (so the old value is returned only when its type matches). -/
def ParameterMap.insert_with_name (self : ParameterMap Code El) (V : Code)
    (key : String) (value : El V) : Option (El V) × ParameterMap Code El :=
  let r := mapInsert self.map (Key.str key) (Parameter.new key V value)
  (r.1.bind (fun p => p.get_value V), ⟨r.2⟩)

/-- ParameterMap::insert_with_type: inserts Parameter::new("(dummy name)",
value) at Key::Id(TypeId::of::<V>()); the evicted parameter, if any, is
downcast to V. -/
def ParameterMap.insert_with_type (self : ParameterMap Code El) (V : Code)
    (value : El V) : Option (El V) × ParameterMap Code El :=
  let r := mapInsert self.map (Key.id V) (Parameter.new "(dummy name)" V value)
  (r.1.bind (fun p => p.get_value V), ⟨r.2⟩)

/-- ParameterMap::remove_with_name: looks up Key::String(key); when absent
returns none leaving the map untouched; when present, removes and downcasts
only if the stored type identity equals V, else returns none leaving the
map untouched. -/
def ParameterMap.remove_with_name (self : ParameterMap Code El) (V : Code)
    (key : String) : Option (El V) × ParameterMap Code El :=
  let k := Key.str key
  match mapLookup self.map k with
  | none => (none, self)
  | some p =>
    if p.type_id = V then
      let r := mapRemove self.map k
      (r.1.bind (fun q => q.get_value V), ⟨r.2⟩)
    else (none, self)

/-- ParameterMap::remove_with_type: same logic as remove_with_name, keyed
at Key::Id(TypeId::of::<V>()). -/
def ParameterMap.remove_with_type (self : ParameterMap Code El) (V : Code) :
    Option (El V) × ParameterMap Code El :=
  let k := Key.id V
  match mapLookup self.map k with
  | none => (none, self)
  | some p =>
    if p.type_id = V then
      let r := mapRemove self.map k
      (r.1.bind (fun q => q.get_value V), ⟨r.2⟩)
    else (none, self)

end ParameterStore

section Container

/-
  The container side. ContainerBuilder::register_type and
  ContainerBuilder::build are embedded from container_builder.rs; the
  registry Map, RegisteredType, Container and resolve are modelled from the
  spec (their source files are not in the excerpt). Interface type
  identities are an arbitrary type IC with decidable equality and
  interpretation IEl; a builder function takes the parameter store of the
  registration and yields either an instance of the interface or an error.
  The recursive container argument of a builder function is elided: the
  claims below do not exercise recursive resolution, and spec section 4.5
  leaves it unguarded.
-/

variable {IC : Type} [DecidableEq IC] {IEl : IC → Type}
variable {Code : Type} [DecidableEq Code] {El : Code → Type}

/-- Modelled from the spec: the error taxonomy of resolution (spec sections
4.5 and 7): the single resolve-origin failure names the unregistered
interface, and a component builder may fail with its own message. -/
inductive DIError where
  | NotRegistered : String → DIError
  | ResolveError : String → DIError
deriving DecidableEq

/-- Modelled from the spec: the Registered Type Descriptor (spec sections 3
and 4.2): the component display name, the build function captured at
construction, and the owned parameter store. -/
structure RegisteredType (IC : Type) (IEl : IC → Type) (Code : Type)
    (El : Code → Type) (i : IC) where
  component : String
  build : ParameterMap Code El → Except DIError (IEl i)
  parameters : ParameterMap Code El

/-- Modelled from the spec: RegisteredType::new constructs a descriptor
with an empty parameter store (spec section 4.2). -/
def RegisteredType.new {i : IC} (componentName : String)
    (buildFn : ParameterMap Code El → Except DIError (IEl i)) :
    RegisteredType IC IEl Code El i :=
  ⟨componentName, buildFn, ParameterMap.new⟩

/-- Modelled from the spec: the type-erased registry Map (spec sections 3
and 4.3), a mapping from interface type identity to one descriptor, erased
for heterogeneous storage. Every stored value sits under the identity of
its own descriptor type, embedded as a dependent pair. -/
def Map (IC : Type) (IEl : IC → Type) (Code : Type) (El : Code → Type) :=
  List (Sigma (RegisteredType IC IEl Code El))

/-- Modelled from the spec: Map::new creates an empty registry. -/
def Map.new : Map IC IEl Code El := []

/-- Modelled from the spec: Map lookup by type identity with checked
downcast (spec section 4.3, get_mut); the dependent-pair invariant makes
the downcast succeed exactly when the key matches. -/
def Map.get? (m : Map IC IEl Code El) (i : IC) :
    Option (RegisteredType IC IEl Code El i) :=
  match m with
  | [] => none
  | ⟨j, v⟩ :: rest => if h : j = i then some (h ▸ v) else Map.get? rest i

/-- Modelled from the spec: Map::insert stores the value under its type
identity and evicts and returns the previous value for that identity, if
any (spec section 4.3). -/
def Map.insert (m : Map IC IEl Code El) (i : IC)
    (v : RegisteredType IC IEl Code El i) :
    Option (RegisteredType IC IEl Code El i) × Map IC IEl Code El :=
  (Map.get? m i, ⟨i, v⟩ :: m.filter (fun e => !(decide (e.1 = i))))

/-- Embedding of ContainerBuilder from container_builder.rs: it owns the
registry Map. -/
structure ContainerBuilder (IC : Type) (IEl : IC → Type) (Code : Type)
    (El : Code → Type) where
  map : Map IC IEl Code El

/-- ContainerBuilder::new creates a builder with an empty registry. -/
def ContainerBuilder.new : ContainerBuilder IC IEl Code El := ⟨Map.new⟩

/-- Result of register_type: the reference the method returns after its
trailing get_mut and unwrap (none would be the unwrap failure), the old
value evicted by the insert (named in the warning log when present), and
the updated builder. -/
structure RegisterOutcome (IC : Type) (IEl : IC → Type) (Code : Type)
    (El : Code → Type) (i : IC) where
  registered : Option (RegisteredType IC IEl Code El i)
  old_value : Option (RegisteredType IC IEl Code El i)
  builder : ContainerBuilder IC IEl Code El

/-- Embedding of ContainerBuilder::register_type from container_builder.rs:
constructs RegisteredType::new(component_type_name, C::build), inserts it
into the registry under the interface identity (logging a warning when an
old value is evicted), then returns the result of looking the identity up
again, unwrapped in the source. The interface identity i and the component
name stand for the type-level inputs C::Interface and type_name::<C>. -/
def ContainerBuilder.register_type (self : ContainerBuilder IC IEl Code El)
    (i : IC) (componentName : String)
    (buildFn : ParameterMap Code El → Except DIError (IEl i)) :
    RegisterOutcome IC IEl Code El i :=
  let registered_type : RegisteredType IC IEl Code El i :=
    RegisteredType.new componentName buildFn
  let r := self.map.insert i registered_type
  ⟨Map.get? r.2 i, r.1, ⟨r.2⟩⟩

/-- Modelled from the spec: the Container, the immutable wrapper around a
finalized registry (spec section 3). -/
structure Container (IC : Type) (IEl : IC → Type) (Code : Type)
    (El : Code → Type) where
  map : Map IC IEl Code El

/-- Modelled from the spec: Container::new wraps the moved registry (spec
section 4.4). -/
def Container.new (map : Map IC IEl Code El) : Container IC IEl Code El :=
  ⟨map⟩

/-- Embedding of ContainerBuilder::build from container_builder.rs: always
returns Ok(Container::new(self.map)). -/
def ContainerBuilder.build (self : ContainerBuilder IC IEl Code El) :
    Except DIError (Container IC IEl Code El) :=
  Except.ok (Container.new self.map)

/-- Modelled from the spec: Container::resolve (spec section 4.5): looks up
the descriptor for the interface identity; when absent fails with a
NotRegistered error naming the interface (typeName embeds type_name); when
present invokes the stored build function on the stored parameter store. -/
def Container.resolve (self : Container IC IEl Code El)
    (typeName : IC → String) (i : IC) : Except DIError (IEl i) :=
  match self.map.get? i with
  | none => Except.error (DIError.NotRegistered (typeName i))
  | some rt => rt.build rt.parameters

end Container

/-- A concrete universe of Rust value types, used for concrete witnesses:
String, bool, f32, usize, and the Parameter wrapper type used by the
mismatched-removal test. An f32 value is carried opaquely by its bit
pattern (the development never computes with floats, only stores and
returns them). -/
inductive RTy where
  | rString
  | rBool
  | rF32
  | rUsize
  | rParam
deriving DecidableEq

/-- Interpretation of the concrete value universe. -/
@[reducible] def RTy.El : RTy → Type
  | .rString => String
  | .rBool => Bool
  | .rF32 => Nat
  | .rUsize => Nat
  | .rParam => Unit

/-- A concrete universe of interface types for witnesses: two interfaces,
one implemented by components producing a String, one by components
producing a Nat. -/
inductive ITy where
  | iFoo
  | iBar
deriving DecidableEq

/-- Interpretation of the concrete interface universe. -/
@[reducible] def ITy.El : ITy → Type
  | .iFoo => String
  | .iBar => Nat

section ParameterLemmas

variable {Code : Type} [DecidableEq Code] {El : Code → Type}

/-- Lookup immediately after insert at the same key returns the inserted
parameter. -/
theorem mapLookup_mapInsert_self (m : List (Key Code × Parameter Code El))
    (k : Key Code) (p : Parameter Code El) :
    mapLookup (mapInsert m k p).2 k = some p := by
  simp [mapInsert, mapLookup]

/-- Downcast at the recorded type identity returns the stored value. -/
theorem get_value_self (p : Parameter Code El) :
    p.get_value p.type_id = some p.value := by
  rw [Parameter.get_value, dif_pos rfl]

/-- Downcast at a type other than the recorded identity fails closed. -/
theorem get_value_ne (p : Parameter Code El) (V : Code) (h : p.type_id ≠ V) :
    p.get_value V = none := by
  rw [Parameter.get_value, dif_neg h]

end ParameterLemmas

section ParameterClaims

variable {Code : Type} [DecidableEq Code] {El : Code → Type}

/-- C3: for all value types V, keys k, and values v of type V, on any
parameter store, insert_with_name(k, v) immediately followed by
remove_with_name at type V and key k returns some v, the originally
inserted value unchanged. -/
theorem insert_name_remove_name_roundtrip (m : ParameterMap Code El)
    (V : Code) (k : String) (v : El V) :
    (((m.insert_with_name V k v).2).remove_with_name V k).1 = some v := by
  simp [ParameterMap.insert_with_name, ParameterMap.remove_with_name,
        mapInsert, mapRemove, mapLookup, Parameter.new, Parameter.get_value]

/-- C2: for every name k and value types V and W with W distinct from V,
after insert_with_name(k, v) with v of type V, remove_with_name at type W
and key k returns none; moreover the store never returns a value under a
requested type differing from the stored type identity, since the downcast
fails closed on any mismatch. -/
theorem remove_name_type_mismatch (m : ParameterMap Code El) (k : String)
    (V W : Code) (v : El V) (h : W ≠ V) :
    (((m.insert_with_name V k v).2).remove_with_name W k).1 = none ∧
    ∀ p : Parameter Code El, p.type_id ≠ W → p.get_value W = none := by
  have hVW : V ≠ W := fun e => h e.symm
  constructor
  · simp [ParameterMap.insert_with_name, ParameterMap.remove_with_name,
          mapInsert, mapRemove, mapLookup, Parameter.new, hVW]
  · intro p hp
    exact get_value_ne p W hp

/-- C2 witness: inserting the string value 2 under key 2 and then removing
under the Parameter wrapper type yields none, as in the repository test. -/
theorem remove_name_type_mismatch_witness :
    ((((ParameterMap.new : ParameterMap RTy RTy.El).insert_with_name
        RTy.rString "key 2" "value 2").2).remove_with_name
        RTy.rParam "key 2").1 = none :=
  (remove_name_type_mismatch _ _ _ _ _ (by decide)).1

/-- C4: re-inserting under an occupied name overwrites: after
insert_with_name(k, v1) at type V1 and insert_with_name(k, v2) at type V2
with V1 distinct from V2, only v2 is retrievable — removal at type V2
yields some v2 and removal at type V1 yields none. -/
theorem insert_name_overwrite (m : ParameterMap Code El) (k : String)
    (V1 V2 : Code) (v1 : El V1) (v2 : El V2) (h : V1 ≠ V2) :
    ((((m.insert_with_name V1 k v1).2).insert_with_name V2 k v2).2.remove_with_name
        V2 k).1 = some v2 ∧
    ((((m.insert_with_name V1 k v1).2).insert_with_name V2 k v2).2.remove_with_name
        V1 k).1 = none := by
  have h21 : V2 ≠ V1 := fun e => h e.symm
  constructor
  · simp [ParameterMap.insert_with_name, ParameterMap.remove_with_name,
          mapInsert, mapRemove, mapLookup, Parameter.new, Parameter.get_value]
  · simp [ParameterMap.insert_with_name, ParameterMap.remove_with_name,
          mapInsert, mapRemove, mapLookup, Parameter.new, h21]

/-- C4 witness: the concrete repository test: insert key4 mapped to the f32
123.323 (carried by its scaled decimal digits), then key4 mapped to true;
removing key4 as bool yields true and removing key4 as f32 yields none. -/
theorem insert_name_overwrite_witness :
    (((((ParameterMap.new : ParameterMap RTy RTy.El).insert_with_name
        RTy.rF32 "key4" 123323).2).insert_with_name RTy.rBool "key4"
        true).2.remove_with_name RTy.rBool "key4").1 = some true ∧
    (((((ParameterMap.new : ParameterMap RTy RTy.El).insert_with_name
        RTy.rF32 "key4" 123323).2).insert_with_name RTy.rBool "key4"
        true).2.remove_with_name RTy.rF32 "key4").1 = none :=
  insert_name_overwrite _ _ _ _ _ _ (by decide)

/-- C5: insert_with_type keys purely on type identity with
overwrite-and-return-previous semantics: for every type V and values v1,
v2 of type V, the second insert returns some v1 and a subsequent
remove_with_type at V returns some v2. -/
theorem insert_type_overwrite (m : ParameterMap Code El) (V : Code)
    (v1 v2 : El V) :
    (((m.insert_with_type V v1).2).insert_with_type V v2).1 = some v1 ∧
    ((((m.insert_with_type V v1).2).insert_with_type V v2).2.remove_with_type
        V).1 = some v2 := by
  constructor
  · simp [ParameterMap.insert_with_type, mapInsert, mapLookup,
          Parameter.new, Parameter.get_value]
  · simp [ParameterMap.insert_with_type, ParameterMap.remove_with_type,
          mapInsert, mapRemove, mapLookup, Parameter.new, Parameter.get_value]

/-- C1 counterexample: insert_with_name does not key by (name, type)
pairs. Insert key4 mapped to an f32, then key4 mapped to a bool: under
composite keys the two entries would occupy distinct keys and the f32
would remain retrievable, but removing key4 as f32 afterwards yields none
— the bool insert evicted the f32 entry. -/
theorem insert_name_composite_key_counterexample :
    (((((ParameterMap.new : ParameterMap RTy RTy.El).insert_with_name
        RTy.rF32 "key4" 123323).2).insert_with_name RTy.rBool "key4"
        true).2.remove_with_name RTy.rF32 "key4").1 = none := by decide

/-- C1 amended: insert_with_name stores the value under a key consisting
of the name alone (the type identity is recorded on the parameter, not in
the key): inserting a V2 value under k evicts a prior V1 entry under k,
and since the evicted value has a different type the second insert returns
none even though an entry existed; a prior entry whose type matches the
inserted type is returned correctly typed. -/
theorem insert_name_keys_by_name_only (m : ParameterMap Code El)
    (k : String) (V1 V2 : Code) (v1 : El V1) (v2 : El V2) (h : V1 ≠ V2) :
    (((m.insert_with_name V1 k v1).2).insert_with_name V2 k v2).1 = none ∧
    ((((m.insert_with_name V1 k v1).2).insert_with_name V2 k
        v2).2.remove_with_name V1 k).1 = none ∧
    ∀ w1 w2 : El V1,
      (((m.insert_with_name V1 k w1).2).insert_with_name V1 k w2).1
        = some w1 := by
  have h21 : V2 ≠ V1 := fun e => h e.symm
  refine ⟨?_, ?_, ?_⟩
  · simp [ParameterMap.insert_with_name, mapInsert, mapLookup,
          Parameter.new, Parameter.get_value, h]
  · simp [ParameterMap.insert_with_name, ParameterMap.remove_with_name,
          mapInsert, mapRemove, mapLookup, Parameter.new, h21]
  · intro w1 w2
    simp [ParameterMap.insert_with_name, mapInsert, mapLookup,
          Parameter.new, Parameter.get_value]

/-- C1 amended witness: at the concrete f32 and bool inserts under key4,
the second insert reports no prior value and the f32 is gone. -/
theorem insert_name_keys_by_name_only_witness :
    ((((ParameterMap.new : ParameterMap RTy RTy.El).insert_with_name
        RTy.rF32 "key4" 123323).2).insert_with_name RTy.rBool "key4"
        true).1 = none ∧
    (((((ParameterMap.new : ParameterMap RTy RTy.El).insert_with_name
        RTy.rF32 "key4" 123323).2).insert_with_name RTy.rBool "key4"
        true).2.remove_with_name RTy.rF32 "key4").1 = none :=
  ⟨(insert_name_keys_by_name_only _ _ _ _ _ _ (by decide)).1,
   (insert_name_keys_by_name_only _ _ _ _ _ _ (by decide)).2.1⟩

/-- Retrieval of a present entry under its recorded type identity
succeeds and returns the stored value. -/
theorem remove_with_name_self_type (m : ParameterMap Code El) (k : String)
    (p : Parameter Code El) (hp : mapLookup m.map (Key.str k) = some p) :
    (m.remove_with_name p.type_id k).1 = some p.value := by
  simp [ParameterMap.remove_with_name, hp, mapRemove, get_value_self]

/-- A remove_with_name call returning none leaves the map untouched. -/
theorem remove_with_name_none_unchanged (m : ParameterMap Code El)
    (V : Code) (k : String) (hn : (m.remove_with_name V k).1 = none) :
    (m.remove_with_name V k).2 = m := by
  unfold ParameterMap.remove_with_name at hn ⊢
  cases hlook : mapLookup m.map (Key.str k) with
  | none => simp [hlook]
  | some p =>
    simp only [hlook] at hn ⊢
    by_cases htid : p.type_id = V
    · exfalso
      simp only [htid, if_true, mapRemove, hlook, Option.some_bind,
                 if_pos] at hn
      rw [Parameter.get_value, dif_pos htid] at hn
      exact Option.noConfusion hn
    · simp [htid]

/-- A remove_with_type call returning none leaves the map untouched. -/
theorem remove_with_type_none_unchanged (m : ParameterMap Code El)
    (W : Code) (ht : (m.remove_with_type W).1 = none) :
    (m.remove_with_type W).2 = m := by
  unfold ParameterMap.remove_with_type at ht ⊢
  cases hlook : mapLookup m.map (Key.id W) with
  | none => simp [hlook]
  | some p =>
    simp only [hlook] at ht ⊢
    by_cases htid : p.type_id = W
    · exfalso
      simp only [htid, if_true, mapRemove, hlook, Option.some_bind,
                 if_pos] at ht
      rw [Parameter.get_value, dif_pos htid] at ht
      exact Option.noConfusion ht
    · simp [htid]

/-- C10: a failed removal is atomic: whenever remove_with_name or
remove_with_type returns none — key absent or stored type identity
mismatched — the store is unchanged, and an entry at the probed name
remains retrievable under its recorded type afterwards. -/
theorem remove_failure_leaves_store_unchanged (m : ParameterMap Code El)
    (V W : Code) (k : String)
    (hn : (m.remove_with_name V k).1 = none)
    (ht : (m.remove_with_type W).1 = none) :
    (m.remove_with_name V k).2 = m ∧ (m.remove_with_type W).2 = m ∧
    ∀ p : Parameter Code El, mapLookup m.map (Key.str k) = some p →
      (((m.remove_with_name V k).2).remove_with_name p.type_id k).1
        = some p.value := by
  refine ⟨remove_with_name_none_unchanged m V k hn,
          remove_with_type_none_unchanged m W ht, ?_⟩
  intro p hp
  rw [remove_with_name_none_unchanged m V k hn]
  exact remove_with_name_self_type m k p hp

/-- C10 witness: on a store holding the string value 2 under key 2, a
removal typed as the Parameter wrapper and a type-keyed removal as usize
both fail and leave the store unchanged. -/
theorem remove_failure_leaves_store_unchanged_witness :
    ((((ParameterMap.new : ParameterMap RTy RTy.El).insert_with_name
        RTy.rString "key 2" "value 2").2).remove_with_name
        RTy.rParam "key 2").2
      = (((ParameterMap.new : ParameterMap RTy RTy.El).insert_with_name
        RTy.rString "key 2" "value 2")).2 ∧
    ((((ParameterMap.new : ParameterMap RTy RTy.El).insert_with_name
        RTy.rString "key 2" "value 2").2).remove_with_type RTy.rUsize).2
      = (((ParameterMap.new : ParameterMap RTy RTy.El).insert_with_name
        RTy.rString "key 2" "value 2")).2 :=
  ⟨(remove_failure_leaves_store_unchanged _ RTy.rParam RTy.rUsize "key 2"
      (by decide) (by decide)).1,
   (remove_failure_leaves_store_unchanged _ RTy.rParam RTy.rUsize "key 2"
      (by decide) (by decide)).2.1⟩

end ParameterClaims

section ContainerClaims

variable {IC : Type} [DecidableEq IC] {IEl : IC → Type}
variable {Code : Type} [DecidableEq Code] {El : Code → Type}

/-- Registry lookup immediately after insert at the same identity returns
the inserted descriptor; this is the invariant of spec section 3 that
makes the downcast after storage always succeed. -/
theorem Map.get?_insert_self (m : Map IC IEl Code El) (i : IC)
    (v : RegisteredType IC IEl Code El i) :
    Map.get? (Map.insert m i v).2 i = some v := by
  show Map.get? (⟨i, v⟩ :: m.filter (fun e => !(decide (e.1 = i)))) i
      = some v
  rw [Map.get?, dif_pos rfl]

/-- C9: the trailing registry lookup in register_type always succeeds: the
method has just inserted a descriptor under exactly that interface
identity, so the unwrap in the source never fails and register_type
returns the just-inserted descriptor. -/
theorem register_type_unwrap_succeeds (b : ContainerBuilder IC IEl Code El)
    (i : IC) (n : String)
    (f : ParameterMap Code El → Except DIError (IEl i)) :
    (b.register_type i n f).registered = some (RegisteredType.new n f) := by
  show Map.get? (Map.insert b.map i (RegisteredType.new n f)).2 i
      = some (RegisteredType.new n f)
  exact Map.get?_insert_self b.map i (RegisteredType.new n f)

/-- C7: build is infallible: for every builder state it returns a
success-wrapped Container constructed from the registry, never an
error. -/
theorem build_always_ok (b : ContainerBuilder IC IEl Code El) :
    b.build = Except.ok (Container.new b.map) := rfl

/-- C8: resolving an interface with zero registrations returns the
not-registered error naming the interface, and this is the only failure
mode of resolve itself: with a registration present, resolve returns
whatever the stored build function returns. -/
theorem resolve_unregistered_error (c : Container IC IEl Code El)
    (tn : IC → String) (i : IC) :
    (c.map.get? i = none →
      c.resolve tn i = Except.error (DIError.NotRegistered (tn i))) ∧
    ∀ rt : RegisteredType IC IEl Code El i,
      c.map.get? i = some rt → c.resolve tn i = rt.build rt.parameters := by
  constructor
  · intro h
    simp [Container.resolve, h]
  · intro rt h
    simp [Container.resolve, h]

/-- C8 witness: resolving iFoo on an empty container fails with the
not-registered error naming the interface. -/
theorem resolve_unregistered_error_witness :
    (Container.new Map.new : Container ITy ITy.El RTy RTy.El).resolve
        (fun _ => "dyn Foo") ITy.iFoo
      = Except.error (DIError.NotRegistered "dyn Foo") :=
  (resolve_unregistered_error (Container.new Map.new)
      (fun _ => "dyn Foo") ITy.iFoo).1 rfl

/-- C6: registering two different components against the same interface
makes the later registration fully replace the earlier one: the first
descriptor is evicted and handed back inside register_type as the old
value, only the second descriptor remains in the registry, and resolving
the interface from the built container runs the second build function. -/
theorem duplicate_registration_last_wins (b : ContainerBuilder IC IEl Code El)
    (i : IC) (tn : IC → String) (n1 n2 : String)
    (f1 f2 : ParameterMap Code El → Except DIError (IEl i))
    (h : n1 ≠ n2) :
    ((b.register_type i n1 f1).builder.register_type i n2 f2).old_value
      = some (RegisteredType.new n1 f1) ∧
    ((b.register_type i n1 f1).builder.register_type i n2
        f2).builder.map.get? i = some (RegisteredType.new n2 f2) ∧
    ((b.register_type i n1 f1).builder.register_type i n2 f2).builder.build
      = Except.ok (Container.new
          ((b.register_type i n1 f1).builder.register_type i n2
            f2).builder.map) ∧
    (Container.new ((b.register_type i n1 f1).builder.register_type i n2
        f2).builder.map).resolve tn i = f2 ParameterMap.new := by
  refine ⟨?_, ?_, rfl, ?_⟩
  · show Map.get? (Map.insert b.map i (RegisteredType.new n1 f1)).2 i
        = some (RegisteredType.new n1 f1)
    exact Map.get?_insert_self b.map i (RegisteredType.new n1 f1)
  · exact Map.get?_insert_self _ i (RegisteredType.new n2 f2)
  · show (match Map.get? (Map.insert _ i (RegisteredType.new n2 f2)).2 i with
        | none => Except.error (DIError.NotRegistered (tn i))
        | some rt => rt.build rt.parameters) = f2 ParameterMap.new
    rw [Map.get?_insert_self _ i (RegisteredType.new n2 f2)]
    rfl

/-- C6 witness: two components registered against iFoo, each producing its
own name as the interface instance; after both registrations the built
container resolves iFoo to the second implementation string, matching the
doc example of container_builder.rs. -/
theorem duplicate_registration_last_wins_witness :
    (Container.new (((ContainerBuilder.new : ContainerBuilder ITy ITy.El
          RTy RTy.El).register_type ITy.iFoo "FooDuplicateImpl1"
          (fun _ => Except.ok "FooDuplicateImpl1")).builder.register_type
          ITy.iFoo "FooDuplicateImpl2"
          (fun _ => Except.ok "FooDuplicateImpl2")).builder.map).resolve
        (fun _ => "dyn FooDuplicate") ITy.iFoo
      = Except.ok "FooDuplicateImpl2" :=
  (duplicate_registration_last_wins ContainerBuilder.new ITy.iFoo
      (fun _ => "dyn FooDuplicate") "FooDuplicateImpl1" "FooDuplicateImpl2"
      ((fun _ => Except.ok "FooDuplicateImpl1") :
        ParameterMap RTy RTy.El → Except DIError (ITy.El ITy.iFoo))
      ((fun _ => Except.ok "FooDuplicateImpl2") :
        ParameterMap RTy RTy.El → Except DIError (ITy.El ITy.iFoo))
      (by decide)).2.2.2

end ContainerClaims

end Shaku
